import Mathlib

/-!
Verification of the AuxAI Spotify proxy server (src/app.py) against its
natural-language specification.

The Flask app in src/app.py exposes two unauthenticated routes (/login,
/callback) and six gated routes (/search, /track/<id>, /playlists,
/playlists/<id>/tracks, /play, /queue).  Each gated handler first calls
`require_authentication`, which consults the token cache of the OAuth manager,
then validates its input parameters and forwards one call to the remote
Spotify API.

Embedding conventions:
* JSON values are modelled by the inductive `Json`; Python `dict.get` is
  `pyDictGet` (returning `none` when the receiver is not a dict, which in
  Python raises AttributeError).
* Each request handler is a pure Lean function of the current time, the
  cached token record, an oracle describing what the remote token endpoint
  would answer to a refresh, the request inputs, and an oracle describing
  the outcome of the remote API call.  It returns the HTTP outcome (a response,
  or an uncaught exception escaping the handler), the list of observable
  events of the invocation (gate check, remote calls, code exchanges), and
  the token cache as left behind.
* The bodies of `sp_oauth.get_cached_token` and `sp_oauth.get_access_token`
  live in the spotipy library, not in this repository; they are modelled
  from the specification and marked as such in their doc comments.
-/

/-- JSON values as Flask/spotipy pass them around. -/
inductive Json where
  | null : Json
  | bool (b : Bool) : Json
  | num (n : Int) : Json
  | str (s : String) : Json
  | arr (elems : List Json) : Json
  | obj (fields : List (String × Json)) : Json

/-- Python truthiness of a JSON value (`if not x`). -/
def Json.truthy : Json → Bool
  | Json.null => false
  | Json.bool b => b
  | Json.num n => n != 0
  | Json.str s => s != ""
  | Json.arr elems => !elems.isEmpty
  | Json.obj fields => !fields.isEmpty

/-- Whether the value is a Python dict. -/
def Json.isObj : Json → Bool
  | Json.obj _ => true
  | _ => false

/-- Keys of a dict, in insertion order. -/
def Json.keys : Json → List String
  | Json.obj fields => fields.map Prod.fst
  | _ => []

/-- Membership test for a key of a dict. -/
def Json.hasKey (j : Json) (k : String) : Bool :=
  match j with
  | Json.obj fields => (fields.lookup k).isSome
  | _ => false

/-- Value stored under a key of a dict, when both exist. -/
def Json.lookupKey (j : Json) (k : String) : Option Json :=
  match j with
  | Json.obj fields => fields.lookup k
  | _ => none

/-- Python `d.get(k, default)`: `none` models the AttributeError raised when
the receiver is not a dict; on a dict it yields the stored value or the
default. -/
def pyDictGet (j : Json) (k : String) (default : Json) : Option Json :=
  match j with
  | Json.obj fields => some ((fields.lookup k).getD default)
  | _ => none

/-- Python `d.get(k)` — default `None`. -/
def pyGet (j : Json) (k : String) : Option Json :=
  pyDictGet j k Json.null

/-- Python truthiness of an optional query/body string (`request.args.get`
returns `None` when the parameter is absent; `if not x` is also taken for an
empty string). -/
def optTruthy : Option String → Bool
  | none => false
  | some s => s != ""

/-- Python `str(x)` as used by the f-string in `play_song`.  Every request in
scope carries its track id as a JSON string, so the container cases are never
exercised by the theorems below and their Python repr is abbreviated. -/
def pyStr : Json → String
  | Json.null => "None"
  | Json.bool true => "True"
  | Json.bool false => "False"
  | Json.num n => toString n
  | Json.str s => s
  | Json.arr _ => "[...]"
  | Json.obj _ => "\x7b...\x7d"

/-- The token record held by the cache of the OAuth manager (spec §3 TokenRecord:
access token, refresh token, expiry, scope). -/
structure TokenInfo where
  access_token : String
  refresh_token : String
  expires_at : Nat
  scope : List String
deriving DecidableEq

/-- Oracle for one invocation of the refresh operation of the remote token
endpoint: either a new access token with its expiry, or a rejection of the
stored refresh token. -/
inductive RefreshOutcome where
  | success (access_token : String) (expires_at : Nat) : RefreshOutcome
  | failure : RefreshOutcome
deriving DecidableEq

/-- Modelled from the spec: `sp_oauth.get_cached_token()` (called at
src/app.py line 44) is implemented by the OAuth library, not in this
repository.  Spec §4.3 SessionGate: read the cache — if absent, not
authenticated; if present and not expired (current time < expires_at),
return the record; if present but expired, attempt a refresh with the stored
refresh token — on success update the cache with the new access_token and
expires_at (refresh token retained) and return the updated record, on
failure not authenticated.  Returns the looked-up record (or `none`)
together with the cache as left behind. -/
def get_cached_token (now : Nat) (cache : Option TokenInfo)
    (refresh : RefreshOutcome) : Option TokenInfo × Option TokenInfo :=
  match cache with
  | none => (none, none)
  | some t =>
    if now < t.expires_at then
      (some t, some t)
    else
      match refresh with
      | RefreshOutcome.success a e =>
        let t2 : TokenInfo :=
          { access_token := a, refresh_token := t.refresh_token,
            expires_at := e, scope := t.scope }
        (some t2, some t2)
      | RefreshOutcome.failure => (none, some t)

/-- The gate helper of src/app.py lines 37–48: look up a cached token and
report `(False, None)` when there is none, `(True, token_info)` otherwise.
The second component of the result is the cache left behind by the
lookup. -/
def require_authentication (now : Nat) (cache : Option TokenInfo)
    (refresh : RefreshOutcome) : (Bool × Option TokenInfo) × Option TokenInfo :=
  match get_cached_token now cache refresh with
  | (none, cache1) => ((false, none), cache1)
  | (some t, cache1) => ((true, some t), cache1)

/-- State of the OAuth manager that the authorization-code exchange touches:
the token cache, plus the set of codes the remote token endpoint has already
redeemed (authorization codes are single-use, spec §4.2). -/
structure OAuthState where
  cache : Option TokenInfo
  usedCodes : List String
deriving DecidableEq

/-- Modelled from the spec: `sp_oauth.get_access_token(code)` (called at
src/app.py line 77) is implemented by the OAuth library, not in this
repository.  Spec §4.2 exchangeCode: the code is exchanged at the remote
token endpoint; on success a token record is built, stored via the cache,
and returned; the endpoint rejects a code that is expired, already used or
malformed (codes are single-use), and that rejection (ExchangeError) is
modelled as `none`.  `fresh` is the oracle for the token record the remote
endpoint would issue for a not-yet-used code. -/
def get_access_token (st : OAuthState) (code : String) (fresh : TokenInfo) :
    Option TokenInfo × OAuthState :=
  if code ∈ st.usedCodes then
    (none, st)
  else
    (some fresh, { cache := some fresh, usedCodes := code :: st.usedCodes })

/-- An HTTP response: status code and JSON body. -/
structure Response where
  status : Nat
  body : Json

/-- Result of one handler invocation: a response, or an exception that the
handler does not catch (Flask would turn it into a 500 Internal Server
Error page, not a JSON response built by the handler). -/
inductive Outcome where
  | response (r : Response) : Outcome
  | raised (msg : String) : Outcome

/-- Observable events of one handler invocation, in order. -/
inductive Event where
  | gateCheck (ok : Bool) : Event
  | remoteCall (op : String) (args : List Json) : Event
  | exchange (code : String) : Event

/-- Value returned by each gated handler: the HTTP outcome, the event trace
of the invocation, and the token cache as left behind. -/
def HandlerResult := Outcome × List Event × Option TokenInfo

def notAuthBody : Json :=
  Json.obj [("error", Json.str "User not authenticated. Please log in via /login.")]

def missingQueryBody : Json :=
  Json.obj [("error", Json.str "Missing query parameter")]

def missingTrackIdsBody : Json :=
  Json.obj [("error", Json.str "Missing track_ids parameter")]

def missingTrackIdBody : Json :=
  Json.obj [("error", Json.str "Missing track_id parameter")]

def successStatusBody : Json :=
  Json.obj [("status", Json.str "success")]

def authSuccessBody : Json :=
  Json.obj [("status", Json.str "Authenticated successfully.")]

def authFailedBody : Json :=
  Json.obj [("error", Json.str "Authentication failed.")]

def errBody (e : String) : Json :=
  Json.obj [("error", Json.str e)]

/-- The /callback handler (src/app.py lines 61–82): read `code` and `error`
from the query string; a truthy `error` is returned as a 400; otherwise a
truthy `code` is exchanged for a token, answering 200 on success; every
other path falls through to 400 "Authentication failed.".  The event trace
records whether an exchange was attempted. -/
def callback (st : OAuthState) (code error : Option String)
    (fresh : TokenInfo) : Response × OAuthState × List Event :=
  if optTruthy error then
    (⟨400, errBody (error.getD "")⟩, st, [])
  else if optTruthy code then
    match get_access_token st (code.getD "") fresh with
    | (some _t, st1) => (⟨200, authSuccessBody⟩, st1, [Event.exchange (code.getD "")])
    | (none, st1) => (⟨400, authFailedBody⟩, st1, [Event.exchange (code.getD "")])
  else
    (⟨400, authFailedBody⟩, st, [])

/-- Python `for x in j`, collecting `f x`: iteration is only modelled over
JSON lists (the Spotify API returns lists for `items` and `artists`); on any
other value the comprehension is modelled as failing, as iterating it in
Python either raises or does not yield dicts, making the `.get` in the loop
body raise. -/
def pyIterMapM (f : Json → Option Json) : Json → Option (List Json)
  | Json.arr elems => elems.mapM f
  | _ => none

/-- Projection of one artist entry of a track (src/app.py lines 116–120):
keeps id, name and href, each `None` (null) when absent. -/
def simplify_artist (artist : Json) : Option Json := do
  let i ← pyGet artist "id"
  let n ← pyGet artist "name"
  let h ← pyGet artist "href"
  pure (Json.obj [("id", i), ("name", n), ("href", h)])

/-- Projection of the album summary of a track (src/app.py lines 122–129):
each field is `track.get("album", \x7b\x7d).get(...)`, applied here to the
already-read album value. -/
def simplify_album (album : Json) : Option Json :=
  match pyGet album "id", pyGet album "name", pyGet album "release_date",
        pyGet album "total_tracks", pyGet album "images", pyGet album "href" with
  | some i, some n, some r, some t, some im, some h =>
    some (Json.obj
      [("id", i), ("name", n), ("release_date", r), ("total_tracks", t),
       ("images", im), ("href", h)])
  | _, _, _, _, _, _ => none

/-- Projection of one track of the search result (src/app.py lines 110–137):
the reduced field set, with every absent remote field read as `None` (null)
by `dict.get`.  All the reads fail together exactly when `track` is not a
dict, so the sequential Python reads are modelled by one simultaneous
match. -/
def simplify_track (track : Json) : Option Json :=
  match pyGet track "id", pyGet track "name",
        (pyDictGet track "artists" (Json.arr [])).bind (pyIterMapM simplify_artist),
        (pyDictGet track "album" (Json.obj [])).bind simplify_album,
        pyGet track "href", pyGet track "uri", pyGet track "preview_url",
        pyGet track "popularity", pyGet track "duration_ms" with
  | some i, some n, some artists, some album, some h, some u, some pv,
    some pop, some dur =>
    some (Json.obj
      [("id", i), ("name", n), ("artists", Json.arr artists), ("album", album),
       ("href", h), ("uri", u), ("preview_url", pv), ("popularity", pop),
       ("duration_ms", dur)])
  | _, _, _, _, _, _, _, _, _ => none

/-- Extraction of the track list from the raw search result (src/app.py line
106): `results.get("tracks", \x7b\x7d).get("items", [])`. -/
def search_items (results : Json) : Option Json := do
  let tracks ← pyDictGet results "tracks" (Json.obj [])
  pyDictGet tracks "items" (Json.arr [])

/-- The whole reshaping step of the /search handler: extract the items and
project each one. -/
def searchSimplify (results : Json) : Option (List Json) := do
  let items ← search_items results
  pyIterMapM simplify_track items

/-- The GET /search handler (src/app.py lines 84–140).  `q` is the query
parameter, `remote` the oracle for the outcome of `sp.search`.  There is no
try/except around the remote call, so a remote rejection escapes the
handler. -/
def search_songs (now : Nat) (cache : Option TokenInfo)
    (refresh : RefreshOutcome) (q : Option String)
    (remote : Except String Json) : HandlerResult :=
  match require_authentication now cache refresh with
  | ((authenticated, _tok), cache1) =>
    if authenticated = false then
      (Outcome.response ⟨401, notAuthBody⟩, [Event.gateCheck false], cache1)
    else if optTruthy q = false then
      (Outcome.response ⟨400, missingQueryBody⟩, [Event.gateCheck true], cache1)
    else
      match remote with
      | Except.error e =>
        (Outcome.raised e,
         [Event.gateCheck true, Event.remoteCall "sp.search" [Json.str (q.getD "")]],
         cache1)
      | Except.ok results =>
        match searchSimplify results with
        | none =>
          (Outcome.raised "TypeError",
           [Event.gateCheck true, Event.remoteCall "sp.search" [Json.str (q.getD "")]],
           cache1)
        | some outs =>
          (Outcome.response ⟨200, Json.arr outs⟩,
           [Event.gateCheck true, Event.remoteCall "sp.search" [Json.str (q.getD "")]],
           cache1)

/-- The GET /track/<id> handler (src/app.py lines 143–159).  The remote call
is wrapped in try/except, so a remote rejection becomes a 400 carrying the
message of the exception. -/
def get_track_details (now : Nat) (cache : Option TokenInfo)
    (refresh : RefreshOutcome) (id : String)
    (remote : Except String Json) : HandlerResult :=
  match require_authentication now cache refresh with
  | ((authenticated, _tok), cache1) =>
    if authenticated = false then
      (Outcome.response ⟨401, notAuthBody⟩, [Event.gateCheck false], cache1)
    else
      match remote with
      | Except.ok track =>
        (Outcome.response ⟨200, track⟩,
         [Event.gateCheck true, Event.remoteCall "sp.track" [Json.str id]],
         cache1)
      | Except.error e =>
        (Outcome.response ⟨400, errBody e⟩,
         [Event.gateCheck true, Event.remoteCall "sp.track" [Json.str id]],
         cache1)

/-- The GET /playlists handler (src/app.py lines 161–173).  There is no
try/except around `sp.current_user_playlists()`, so a remote rejection
escapes the handler. -/
def get_playlists (now : Nat) (cache : Option TokenInfo)
    (refresh : RefreshOutcome) (remote : Except String Json) : HandlerResult :=
  match require_authentication now cache refresh with
  | ((authenticated, _tok), cache1) =>
    if authenticated = false then
      (Outcome.response ⟨401, notAuthBody⟩, [Event.gateCheck false], cache1)
    else
      match remote with
      | Except.ok playlists =>
        (Outcome.response ⟨200, playlists⟩,
         [Event.gateCheck true, Event.remoteCall "sp.current_user_playlists" []],
         cache1)
      | Except.error e =>
        (Outcome.raised e,
         [Event.gateCheck true, Event.remoteCall "sp.current_user_playlists" []],
         cache1)

/-- The POST /playlists/<id>/tracks handler (src/app.py lines 175–197).
`body` is the parsed request JSON; a non-dict body makes `.get` raise.  The
remote call is wrapped in try/except. -/
def add_to_playlist (now : Nat) (cache : Option TokenInfo)
    (refresh : RefreshOutcome) (id : String) (body : Json)
    (remote : Except String Unit) : HandlerResult :=
  match require_authentication now cache refresh with
  | ((authenticated, _tok), cache1) =>
    if authenticated = false then
      (Outcome.response ⟨401, notAuthBody⟩, [Event.gateCheck false], cache1)
    else
      match pyGet body "track_ids" with
      | none => (Outcome.raised "AttributeError", [Event.gateCheck true], cache1)
      | some track_ids =>
        if track_ids.truthy = false then
          (Outcome.response ⟨400, missingTrackIdsBody⟩, [Event.gateCheck true], cache1)
        else
          match remote with
          | Except.ok _ =>
            (Outcome.response ⟨200, successStatusBody⟩,
             [Event.gateCheck true,
              Event.remoteCall "sp.playlist_add_items" [Json.str id, track_ids]],
             cache1)
          | Except.error e =>
            (Outcome.response ⟨400, errBody e⟩,
             [Event.gateCheck true,
              Event.remoteCall "sp.playlist_add_items" [Json.str id, track_ids]],
             cache1)

/-- The PUT /play handler (src/app.py lines 199–220).  The track id is
wrapped into the single Spotify URI `spotify:track:` + track_id and passed as
the one-element `uris` list.  The remote call is wrapped in try/except. -/
def play_song (now : Nat) (cache : Option TokenInfo)
    (refresh : RefreshOutcome) (body : Json)
    (remote : Except String Unit) : HandlerResult :=
  match require_authentication now cache refresh with
  | ((authenticated, _tok), cache1) =>
    if authenticated = false then
      (Outcome.response ⟨401, notAuthBody⟩, [Event.gateCheck false], cache1)
    else
      match pyGet body "track_id" with
      | none => (Outcome.raised "AttributeError", [Event.gateCheck true], cache1)
      | some track_id =>
        if track_id.truthy = false then
          (Outcome.response ⟨400, missingTrackIdBody⟩, [Event.gateCheck true], cache1)
        else
          match remote with
          | Except.ok _ =>
            (Outcome.response ⟨200, successStatusBody⟩,
             [Event.gateCheck true,
              Event.remoteCall "sp.start_playback"
                [Json.arr [Json.str ("spotify:track:" ++ pyStr track_id)]]],
             cache1)
          | Except.error e =>
            (Outcome.response ⟨400, errBody e⟩,
             [Event.gateCheck true,
              Event.remoteCall "sp.start_playback"
                [Json.arr [Json.str ("spotify:track:" ++ pyStr track_id)]]],
             cache1)

/-- The POST /queue handler (src/app.py lines 222–243).  The remote call is
wrapped in try/except. -/
def queue_song (now : Nat) (cache : Option TokenInfo)
    (refresh : RefreshOutcome) (body : Json)
    (remote : Except String Unit) : HandlerResult :=
  match require_authentication now cache refresh with
  | ((authenticated, _tok), cache1) =>
    if authenticated = false then
      (Outcome.response ⟨401, notAuthBody⟩, [Event.gateCheck false], cache1)
    else
      match pyGet body "track_id" with
      | none => (Outcome.raised "AttributeError", [Event.gateCheck true], cache1)
      | some track_id =>
        if track_id.truthy = false then
          (Outcome.response ⟨400, missingTrackIdBody⟩, [Event.gateCheck true], cache1)
        else
          match remote with
          | Except.ok _ =>
            (Outcome.response ⟨200, successStatusBody⟩,
             [Event.gateCheck true, Event.remoteCall "sp.add_to_queue" [track_id]],
             cache1)
          | Except.error e =>
            (Outcome.response ⟨400, errBody e⟩,
             [Event.gateCheck true, Event.remoteCall "sp.add_to_queue" [track_id]],
             cache1)

/-- Whether a trace contains a call to the remote Spotify API. -/
def hasRemoteCall (tr : List Event) : Bool :=
  tr.any fun e =>
    match e with
    | Event.remoteCall _ _ => true
    | _ => false

/-- Gate discipline of an invocation trace: the very first event is the
authentication check, and remote calls only appear after a successful
check. -/
def gate_discipline (tr : List Event) : Bool :=
  match tr with
  | Event.gateCheck ok :: rest => ok || !hasRemoteCall rest
  | _ => false

/-- The reduced field set of a reshaped search result item, in the order the
handler builds it (src/app.py lines 112–135). -/
def simplified_fields : List String :=
  ["id", "name", "artists", "album", "href", "uri", "preview_url",
   "popularity", "duration_ms"]

/-- The scalar fields of a track that are copied directly from the remote
item with `track.get(...)`. -/
def scalar_track_fields : List String :=
  ["id", "name", "href", "uri", "preview_url", "popularity", "duration_ms"]

/-- The album summary produced for a track whose remote item has no album
field at all: every album field is null. -/
def emptyAlbumSummary : Json :=
  Json.obj
    [("id", Json.null), ("name", Json.null), ("release_date", Json.null),
     ("total_tracks", Json.null), ("images", Json.null), ("href", Json.null)]

/-- Structural well-formedness of a remote track item, as the Spotify API
shapes them: the item is a dict, its artists field (when present) is a list
of dicts, and its album field (when present) is a dict.  Any of the
reduced-projection fields may be absent. -/
def wf_track (t : Json) : Bool :=
  t.isObj &&
  (match pyDictGet t "artists" (Json.arr []) with
   | some (Json.arr elems) => elems.all Json.isObj
   | _ => false) &&
  (match pyDictGet t "album" (Json.obj []) with
   | some album => album.isObj
   | none => false)

/-- Total version of the track projection (never used on inputs where the
projection fails). -/
def simplify_trackD (t : Json) : Json :=
  (simplify_track t).getD Json.null

/-- Value of a field of a dict-shaped track item, null when absent — what
`track.get(k)` yields on a dict. -/
def tfield (t : Json) (k : String) : Json :=
  match t with
  | Json.obj fields => (fields.lookup k).getD Json.null
  | _ => Json.null

/-- A concrete token record used by the witnesses below. -/
def demoToken : TokenInfo :=
  { access_token := "access0", refresh_token := "refresh0",
    expires_at := 100, scope := ["user-library-read"] }

/-- A concrete remote search result used by the search-reshaping witness:
the first item has a couple of fields, the second item is an entirely empty
dict, so every reduced field of it must come out null. -/
def demoTrackFull : Json :=
  Json.obj
    [("id", Json.str "t1"), ("name", Json.str "Song One"),
     ("artists", Json.arr [Json.obj [("name", Json.str "Artist A")]]),
     ("album", Json.obj [("name", Json.str "Album A")]),
     ("popularity", Json.num 55)]

def demoTrackEmpty : Json :=
  Json.obj []

def demoResults : Json :=
  Json.obj
    [("tracks", Json.obj [("items", Json.arr [demoTrackFull, demoTrackEmpty])])]

/-- When the gate reports success, it has produced a token record, and the
reported pair is literally `(true, some t)`. -/
theorem require_authentication_true_shape (now : Nat) (cache : Option TokenInfo)
    (refresh : RefreshOutcome)
    (h : (require_authentication now cache refresh).1.1 = true) :
    ∃ t c1, require_authentication now cache refresh = ((true, some t), c1) := by
  unfold require_authentication at h ⊢
  rcases hg : get_cached_token now cache refresh with ⟨tok, c1⟩
  rw [hg] at h
  rcases tok with _ | t
  · exact Bool.noConfusion h
  · exact ⟨t, c1, rfl⟩

/-- C2: a request to any of the six gated routes while the token cache holds
no record gets the exact 401 not-authenticated response, the trace of the
invocation is just the failed gate check (in particular no remote call is made),
and the cache stays empty. -/
theorem empty_cache_gated_routes_401 :
    ∀ (now : Nat) (refresh : RefreshOutcome) (q : Option String)
      (rj rj2 : Except String Json) (ru1 ru2 ru3 : Except String Unit)
      (id1 id2 : String) (b1 b2 b3 : Json),
    search_songs now none refresh q rj
        = (Outcome.response ⟨401, notAuthBody⟩, [Event.gateCheck false], none) ∧
    get_track_details now none refresh id1 rj2
        = (Outcome.response ⟨401, notAuthBody⟩, [Event.gateCheck false], none) ∧
    get_playlists now none refresh rj
        = (Outcome.response ⟨401, notAuthBody⟩, [Event.gateCheck false], none) ∧
    add_to_playlist now none refresh id2 b1 ru1
        = (Outcome.response ⟨401, notAuthBody⟩, [Event.gateCheck false], none) ∧
    play_song now none refresh b2 ru2
        = (Outcome.response ⟨401, notAuthBody⟩, [Event.gateCheck false], none) ∧
    queue_song now none refresh b3 ru3
        = (Outcome.response ⟨401, notAuthBody⟩, [Event.gateCheck false], none) := by
  intros
  exact ⟨rfl, rfl, rfl, rfl, rfl, rfl⟩

/-- C1: every invocation of a gated handler opens with the authentication
check, and its trace satisfies the gate discipline: a remote Spotify call
only ever appears after a successful gate check in the same invocation. -/
theorem gated_routes_gate_check_first :
    ∀ (now : Nat) (cache : Option TokenInfo) (refresh : RefreshOutcome)
      (q : Option String) (rj rj2 : Except String Json)
      (ru1 ru2 ru3 : Except String Unit) (id1 id2 : String) (b1 b2 b3 : Json),
    gate_discipline (search_songs now cache refresh q rj).2.1 = true ∧
    gate_discipline (get_track_details now cache refresh id1 rj2).2.1 = true ∧
    gate_discipline (get_playlists now cache refresh rj).2.1 = true ∧
    gate_discipline (add_to_playlist now cache refresh id2 b1 ru1).2.1 = true ∧
    gate_discipline (play_song now cache refresh b2 ru2).2.1 = true ∧
    gate_discipline (queue_song now cache refresh b3 ru3).2.1 = true := by
  intros
  refine ⟨?_, ?_, ?_, ?_, ?_, ?_⟩
  · unfold search_songs
    repeat' first | rfl | split
  · unfold get_track_details
    repeat' first | rfl | split
  · unfold get_playlists
    repeat' first | rfl | split
  · unfold add_to_playlist
    repeat' first | rfl | split
  · unfold play_song
    repeat' first | rfl | split
  · unfold queue_song
    repeat' first | rfl | split

/-- C3: when the cached token is expired, the gate refreshes it: on refresh
success the cache holds the record with the new access token and expiry
(refresh token and scope retained) and a proxied operation proceeds
transparently; on refresh failure the gate reports not-authenticated, the
request gets the 401, and the cache still holds the intact (expired) record,
so every later request keeps failing until a fresh login. -/
theorem expired_token_refresh_behavior :
    ∀ (now : Nat) (t : TokenInfo) (a : String) (e : Nat) (payload : Json)
      (remote : Except String Json),
    t.expires_at ≤ now →
    (require_authentication now (some t) (RefreshOutcome.success a e)
        = ((true, some { access_token := a, refresh_token := t.refresh_token,
                         expires_at := e, scope := t.scope }),
           some { access_token := a, refresh_token := t.refresh_token,
                  expires_at := e, scope := t.scope }) ∧
      get_playlists now (some t) (RefreshOutcome.success a e) (Except.ok payload)
        = (Outcome.response ⟨200, payload⟩,
           [Event.gateCheck true, Event.remoteCall "sp.current_user_playlists" []],
           some { access_token := a, refresh_token := t.refresh_token,
                  expires_at := e, scope := t.scope })) ∧
    (∀ now2, now ≤ now2 →
        require_authentication now2 (some t) RefreshOutcome.failure
          = ((false, none), some t)) ∧
    get_playlists now (some t) RefreshOutcome.failure remote
        = (Outcome.response ⟨401, notAuthBody⟩, [Event.gateCheck false], some t) := by
  intro now t a e payload remote h
  have hnlt : ¬ now < t.expires_at := Nat.not_lt.mpr h
  refine ⟨⟨?_, ?_⟩, ?_, ?_⟩
  · simp [require_authentication, get_cached_token, hnlt]
  · simp [get_playlists, require_authentication, get_cached_token, hnlt]
  · intro now2 h2
    have hnlt2 : ¬ now2 < t.expires_at := Nat.not_lt.mpr (le_trans h h2)
    simp [require_authentication, get_cached_token, hnlt2]
  · simp [get_playlists, require_authentication, get_cached_token, hnlt]

theorem expired_token_refresh_behavior_witness :
    require_authentication 100 (some demoToken) (RefreshOutcome.success "newAccess" 200)
        = ((true, some { access_token := "newAccess",
                         refresh_token := demoToken.refresh_token,
                         expires_at := 200, scope := demoToken.scope }),
           some { access_token := "newAccess",
                  refresh_token := demoToken.refresh_token,
                  expires_at := 200, scope := demoToken.scope }) :=
  (expired_token_refresh_behavior 100 demoToken "newAccess" 200 Json.null
      (Except.error "x") (by decide)).1.1

/-- C4 counterexample: an authenticated GET /playlists whose remote call is
rejected does not produce the 400 response the claim promises — the
exception escapes the handler uncaught. -/
theorem get_playlists_remote_rejection_uncaught :
    (get_playlists 0 (some demoToken) RefreshOutcome.failure
        (Except.error "remote rejected")).1 = Outcome.raised "remote rejected" ∧
    (get_playlists 0 (some demoToken) RefreshOutcome.failure
        (Except.error "remote rejected")).1
      ≠ Outcome.response ⟨400, errBody "remote rejected"⟩ := by
  have h1 : (get_playlists 0 (some demoToken) RefreshOutcome.failure
      (Except.error "remote rejected")).1 = Outcome.raised "remote rejected" := rfl
  refine ⟨h1, ?_⟩
  rw [h1]
  simp

/-- C4 amended: for an authenticated, well-formed request whose remote call
the Spotify API rejects, the four handlers that wrap their remote call in
try/except (GET /track/<id>, POST /playlists/<id>/tracks, PUT /play,
POST /queue) answer 400 with the remote error message; GET /playlists and
GET /search have no such handler-level catch, so there the rejection
escapes the handler uncaught instead of becoming a 400. -/
theorem remote_rejection_status_by_route :
    ∀ (now : Nat) (cache : Option TokenInfo) (refresh : RefreshOutcome)
      (e : String) (id1 id2 : String) (q : Option String) (b1 b2 b3 v w x : Json),
    (require_authentication now cache refresh).1.1 = true →
    optTruthy q = true →
    pyGet b1 "track_ids" = some v → v.truthy = true →
    pyGet b2 "track_id" = some w → w.truthy = true →
    pyGet b3 "track_id" = some x → x.truthy = true →
    (get_track_details now cache refresh id1 (Except.error e)).1
        = Outcome.response ⟨400, errBody e⟩ ∧
    (add_to_playlist now cache refresh id2 b1 (Except.error e)).1
        = Outcome.response ⟨400, errBody e⟩ ∧
    (play_song now cache refresh b2 (Except.error e)).1
        = Outcome.response ⟨400, errBody e⟩ ∧
    (queue_song now cache refresh b3 (Except.error e)).1
        = Outcome.response ⟨400, errBody e⟩ ∧
    (get_playlists now cache refresh (Except.error e)).1 = Outcome.raised e ∧
    (search_songs now cache refresh q (Except.error e)).1 = Outcome.raised e := by
  intro now cache refresh e id1 id2 q b1 b2 b3 v w x hauth hq hb1 hv hb2 hw hb3 hx
  obtain ⟨t, c1, hre⟩ := require_authentication_true_shape now cache refresh hauth
  refine ⟨?_, ?_, ?_, ?_, ?_, ?_⟩
  · simp [get_track_details, hre]
  · simp [add_to_playlist, hre, hb1, hv]
  · simp [play_song, hre, hb2, hw]
  · simp [queue_song, hre, hb3, hx]
  · simp [get_playlists, hre]
  · simp [search_songs, hre, hq]

theorem remote_rejection_status_by_route_witness :
    (get_track_details 0 (some demoToken) RefreshOutcome.failure "trk1"
        (Except.error "bad id")).1 = Outcome.response ⟨400, errBody "bad id"⟩ ∧
    (add_to_playlist 0 (some demoToken) RefreshOutcome.failure "pl1"
        (Json.obj [("track_ids", Json.arr [Json.str "trk1"])])
        (Except.error "bad id")).1 = Outcome.response ⟨400, errBody "bad id"⟩ ∧
    (play_song 0 (some demoToken) RefreshOutcome.failure
        (Json.obj [("track_id", Json.str "trk1")])
        (Except.error "bad id")).1 = Outcome.response ⟨400, errBody "bad id"⟩ ∧
    (queue_song 0 (some demoToken) RefreshOutcome.failure
        (Json.obj [("track_id", Json.str "trk1")])
        (Except.error "bad id")).1 = Outcome.response ⟨400, errBody "bad id"⟩ ∧
    (get_playlists 0 (some demoToken) RefreshOutcome.failure
        (Except.error "bad id")).1 = Outcome.raised "bad id" ∧
    (search_songs 0 (some demoToken) RefreshOutcome.failure (some "abba")
        (Except.error "bad id")).1 = Outcome.raised "bad id" :=
  remote_rejection_status_by_route 0 (some demoToken) RefreshOutcome.failure
    "bad id" "trk1" "pl1" (some "abba")
    (Json.obj [("track_ids", Json.arr [Json.str "trk1"])])
    (Json.obj [("track_id", Json.str "trk1")])
    (Json.obj [("track_id", Json.str "trk1")])
    (Json.arr [Json.str "trk1"]) (Json.str "trk1") (Json.str "trk1")
    (by decide) (by decide) rfl (by decide) rfl (by decide) rfl (by decide)

/-- C5: replaying an authorization code in a second /callback request fails
(spec-modelled single-use codes): the first exchange succeeds with the 200
"Authenticated successfully." response, the second request with the same
code attempts exactly one exchange — never retried — and answers the 400
authentication-failure response instead of silently succeeding. -/
theorem authorization_code_replay_fails :
    ∀ (st : OAuthState) (c : String) (f1 f2 : TokenInfo),
    c ≠ "" → c ∉ st.usedCodes →
    (callback st (some c) none f1).1 = ⟨200, authSuccessBody⟩ ∧
    (callback ((callback st (some c) none f1).2.1) (some c) none f2).1
        = ⟨400, authFailedBody⟩ ∧
    (callback ((callback st (some c) none f1).2.1) (some c) none f2).2.2
        = [Event.exchange c] := by
  intro st c f1 f2 hc hmem
  have hct : optTruthy (some c) = true := by
    simp [optTruthy, bne_iff_ne]
    exact hc
  have h1 : callback st (some c) none f1
      = (⟨200, authSuccessBody⟩,
         { cache := some f1, usedCodes := c :: st.usedCodes },
         [Event.exchange c]) := by
    simp [callback, hct, optTruthy, get_access_token, hmem, hc]
  refine ⟨by rw [h1], ?_, ?_⟩ <;>
    rw [h1] <;>
    simp [callback, hct, optTruthy, get_access_token, hc]

theorem authorization_code_replay_fails_witness :
    (callback ⟨none, []⟩ (some "code1") none demoToken).1
        = ⟨200, authSuccessBody⟩ ∧
    (callback ((callback ⟨none, []⟩ (some "code1") none demoToken).2.1)
        (some "code1") none demoToken).1 = ⟨400, authFailedBody⟩ ∧
    (callback ((callback ⟨none, []⟩ (some "code1") none demoToken).2.1)
        (some "code1") none demoToken).2.2 = [Event.exchange "code1"] :=
  authorization_code_replay_fails ⟨none, []⟩ "code1" demoToken demoToken
    (by decide) (by decide)

/-- C7 counterexample: a /callback request whose `error` query parameter is
present but empty (`?error=`) is not short-circuited to a 400 carrying the
error — with a valid code alongside it the handler exchanges the code and
answers 200, because the source tests `if error:` (truthiness), not
presence. -/
theorem callback_empty_error_not_short_circuited :
    (callback ⟨none, []⟩ (some "goodcode") (some "") demoToken).1
        = ⟨200, authSuccessBody⟩ ∧
    (callback ⟨none, []⟩ (some "goodcode") (some "") demoToken).2.2
        = [Event.exchange "goodcode"] ∧
    (callback ⟨none, []⟩ (some "goodcode") (some "") demoToken).1
        ≠ ⟨400, errBody ""⟩ := by
  refine ⟨rfl, rfl, ?_⟩
  intro hcontra
  exact absurd (congrArg Response.status hcontra) (by decide)

/-- C7 amended: /callback dispatches on the truthiness (present and
non-empty), not the mere presence, of its query parameters, in this order:
a truthy `error` gives 400 with the error as body and no exchange is
attempted; otherwise a truthy `code` is exchanged — 200 on success, 400
"Authentication failed." when the endpoint rejects the code; every
remaining case (both absent, or present but empty) gives 400
"Authentication failed." without attempting an exchange. -/
theorem callback_dispatch_truthiness :
    ∀ (st : OAuthState) (code error : Option String) (fresh : TokenInfo),
    (optTruthy error = true →
        callback st code error fresh = (⟨400, errBody (error.getD "")⟩, st, [])) ∧
    (optTruthy error = false → optTruthy code = true →
        (code.getD "") ∉ st.usedCodes →
        callback st code error fresh
          = (⟨200, authSuccessBody⟩,
             { cache := some fresh, usedCodes := (code.getD "") :: st.usedCodes },
             [Event.exchange (code.getD "")])) ∧
    (optTruthy error = false → optTruthy code = true →
        (code.getD "") ∈ st.usedCodes →
        callback st code error fresh
          = (⟨400, authFailedBody⟩, st, [Event.exchange (code.getD "")])) ∧
    (optTruthy error = false → optTruthy code = false →
        callback st code error fresh = (⟨400, authFailedBody⟩, st, [])) := by
  intro st code error fresh
  refine ⟨?_, ?_, ?_, ?_⟩
  · intro he
    simp [callback, he]
  · intro he hcode hmem
    simp [callback, he, hcode, get_access_token, hmem]
  · intro he hcode hmem
    simp [callback, he, hcode, get_access_token, hmem]
  · intro he hcode
    simp [callback, he, hcode]

theorem callback_dispatch_truthiness_witness :
    callback ⟨none, []⟩ none (some "access_denied") demoToken
        = (⟨400, errBody "access_denied"⟩, ⟨none, []⟩, []) ∧
    callback ⟨none, []⟩ none none demoToken
        = (⟨400, authFailedBody⟩, ⟨none, []⟩, []) :=
  ⟨(callback_dispatch_truthiness ⟨none, []⟩ none (some "access_denied") demoToken).1
      (by decide),
   (callback_dispatch_truthiness ⟨none, []⟩ none none demoToken).2.2.2
      (by decide) (by decide)⟩

/-- C8: an authenticated POST /queue whose JSON body is a dict without the
track_id key answers 400 with the "Missing track_id parameter" body, and the
trace of the invocation holds only the gate check — no remote call is made. -/
theorem queue_missing_track_id_400 :
    ∀ (now : Nat) (cache : Option TokenInfo) (refresh : RefreshOutcome)
      (body : Json) (ru : Except String Unit),
    (require_authentication now cache refresh).1.1 = true →
    body.isObj = true →
    body.hasKey "track_id" = false →
    queue_song now cache refresh body ru
      = (Outcome.response ⟨400, missingTrackIdBody⟩, [Event.gateCheck true],
         (require_authentication now cache refresh).2) := by
  intro now cache refresh body ru hauth hobj hkey
  obtain ⟨t, c1, hre⟩ := require_authentication_true_shape now cache refresh hauth
  rcases body with _ | b | n | s | elems | fields
  case obj =>
    have hlook : fields.lookup "track_id" = none := by
      rcases hl : fields.lookup "track_id" with _ | vv
      · rfl
      · rw [Json.hasKey, hl] at hkey
        exact absurd hkey (by simp)
    simp [queue_song, hre, pyGet, pyDictGet, hlook, Json.truthy]
  all_goals exact absurd hobj (by simp [Json.isObj])

theorem queue_missing_track_id_400_witness :
    queue_song 0 (some demoToken) RefreshOutcome.failure (Json.obj [])
        (Except.ok ())
      = (Outcome.response ⟨400, missingTrackIdBody⟩, [Event.gateCheck true],
         some demoToken) :=
  queue_missing_track_id_400 0 (some demoToken) RefreshOutcome.failure
    (Json.obj []) (Except.ok ()) (by decide) rfl rfl

/-- C9: an authenticated request whose required parameter is present but
falsy — an empty track_ids list, an empty-string track_id, or an
empty-string q — is rejected as missing with a 400, and the trace holds
only the gate check, so nothing is forwarded to the remote API. -/
theorem falsy_parameters_rejected_400 :
    ∀ (now : Nat) (cache : Option TokenInfo) (refresh : RefreshOutcome)
      (id : String) (b1 b2 b3 : Json) (ru1 ru2 ru3 : Except String Unit)
      (rj : Except String Json),
    (require_authentication now cache refresh).1.1 = true →
    pyGet b1 "track_ids" = some (Json.arr []) →
    pyGet b2 "track_id" = some (Json.str "") →
    pyGet b3 "track_id" = some (Json.str "") →
    add_to_playlist now cache refresh id b1 ru1
      = (Outcome.response ⟨400, missingTrackIdsBody⟩, [Event.gateCheck true],
         (require_authentication now cache refresh).2) ∧
    play_song now cache refresh b2 ru2
      = (Outcome.response ⟨400, missingTrackIdBody⟩, [Event.gateCheck true],
         (require_authentication now cache refresh).2) ∧
    queue_song now cache refresh b3 ru3
      = (Outcome.response ⟨400, missingTrackIdBody⟩, [Event.gateCheck true],
         (require_authentication now cache refresh).2) ∧
    search_songs now cache refresh (some "") rj
      = (Outcome.response ⟨400, missingQueryBody⟩, [Event.gateCheck true],
         (require_authentication now cache refresh).2) := by
  intro now cache refresh id b1 b2 b3 ru1 ru2 ru3 rj hauth hb1 hb2 hb3
  obtain ⟨t, c1, hre⟩ := require_authentication_true_shape now cache refresh hauth
  refine ⟨?_, ?_, ?_, ?_⟩
  · simp [add_to_playlist, hre, hb1, Json.truthy]
  · simp [play_song, hre, hb2, Json.truthy]
  · simp [queue_song, hre, hb3, Json.truthy]
  · simp [search_songs, hre, optTruthy]

theorem falsy_parameters_rejected_400_witness :
    add_to_playlist 0 (some demoToken) RefreshOutcome.failure "pl1"
        (Json.obj [("track_ids", Json.arr [])]) (Except.ok ())
      = (Outcome.response ⟨400, missingTrackIdsBody⟩, [Event.gateCheck true],
         some demoToken) ∧
    play_song 0 (some demoToken) RefreshOutcome.failure
        (Json.obj [("track_id", Json.str "")]) (Except.ok ())
      = (Outcome.response ⟨400, missingTrackIdBody⟩, [Event.gateCheck true],
         some demoToken) ∧
    queue_song 0 (some demoToken) RefreshOutcome.failure
        (Json.obj [("track_id", Json.str "")]) (Except.ok ())
      = (Outcome.response ⟨400, missingTrackIdBody⟩, [Event.gateCheck true],
         some demoToken) ∧
    search_songs 0 (some demoToken) RefreshOutcome.failure (some "")
        (Except.ok Json.null)
      = (Outcome.response ⟨400, missingQueryBody⟩, [Event.gateCheck true],
         some demoToken) :=
  falsy_parameters_rejected_400 0 (some demoToken) RefreshOutcome.failure "pl1"
    (Json.obj [("track_ids", Json.arr [])])
    (Json.obj [("track_id", Json.str "")])
    (Json.obj [("track_id", Json.str "")])
    (Except.ok ()) (Except.ok ()) (Except.ok ()) (Except.ok Json.null)
    (by decide) rfl rfl rfl

/-- C10: an authenticated PUT /play with a non-empty string track_id issues
exactly one remote call, `sp.start_playback`, whose `uris` argument is
exactly the one-element list holding `spotify:track:` followed by the raw
track id. -/
theorem play_wraps_track_id_single_uri :
    ∀ (now : Nat) (cache : Option TokenInfo) (refresh : RefreshOutcome)
      (body : Json) (s : String) (ru : Except String Unit),
    (require_authentication now cache refresh).1.1 = true →
    pyGet body "track_id" = some (Json.str s) →
    s ≠ "" →
    (play_song now cache refresh body ru).2.1
      = [Event.gateCheck true,
         Event.remoteCall "sp.start_playback"
           [Json.arr [Json.str ("spotify:track:" ++ s)]]] := by
  intro now cache refresh body s ru hauth hbody hs
  obtain ⟨t, c1, hre⟩ := require_authentication_true_shape now cache refresh hauth
  rcases ru with _ | _ <;>
    simp [play_song, hre, hbody, Json.truthy, pyStr, hs]

/-- Reducing the artist projection on a dict: it always succeeds, with null
for each absent field. -/
theorem simplify_artist_obj (afs : List (String × Json)) :
    simplify_artist (Json.obj afs)
      = some (Json.obj
          [("id", (afs.lookup "id").getD Json.null),
           ("name", (afs.lookup "name").getD Json.null),
           ("href", (afs.lookup "href").getD Json.null)]) := rfl

/-- Reducing the album projection on a dict: it always succeeds, with null
for each absent field. -/
theorem simplify_album_obj (bfs : List (String × Json)) :
    simplify_album (Json.obj bfs)
      = some (Json.obj
          [("id", (bfs.lookup "id").getD Json.null),
           ("name", (bfs.lookup "name").getD Json.null),
           ("release_date", (bfs.lookup "release_date").getD Json.null),
           ("total_tracks", (bfs.lookup "total_tracks").getD Json.null),
           ("images", (bfs.lookup "images").getD Json.null),
           ("href", (bfs.lookup "href").getD Json.null)]) := rfl

/-- The artist projection succeeds on every list of dicts. -/
theorem mapM_simplify_artist_all_obj (elems : List Json)
    (h : elems.all Json.isObj = true) :
    ∃ outs, elems.mapM simplify_artist = some outs := by
  induction elems with
  | nil => exact ⟨[], rfl⟩
  | cons a rest ih =>
    simp only [List.all_cons, Bool.and_eq_true] at h
    obtain ⟨outs, houts⟩ := ih h.2
    rcases a with _ | b | n | s | es | afs
    case obj =>
      exact ⟨Json.obj
          [("id", (afs.lookup "id").getD Json.null),
           ("name", (afs.lookup "name").getD Json.null),
           ("href", (afs.lookup "href").getD Json.null)] :: outs,
        by rw [List.mapM_cons, simplify_artist_obj, houts]; rfl⟩
    all_goals exact absurd h.1 (by simp [Json.isObj])

/-- A dict field that is absent reads as null. -/
theorem tfield_eq_null (t : Json) (k : String) (h : t.hasKey k = false) :
    tfield t k = Json.null := by
  rcases t with _ | b | n | s | es | fs
  case obj =>
    rcases hl : fs.lookup k with _ | v
    · simp [tfield, hl]
    · rw [Json.hasKey, hl] at h
      exact absurd h (by simp)
  all_goals rfl

/-- On a well-formed track item the projection succeeds and produces exactly
the reduced object, each scalar field read with `tfield`; an absent artists
field yields the empty list and an absent album field yields the all-null
album summary. -/
theorem simplify_track_wf (t : Json) (h : wf_track t = true) :
    ∃ arts albumOut,
      simplify_track t
        = some (Json.obj
            [("id", tfield t "id"), ("name", tfield t "name"),
             ("artists", Json.arr arts), ("album", albumOut),
             ("href", tfield t "href"), ("uri", tfield t "uri"),
             ("preview_url", tfield t "preview_url"),
             ("popularity", tfield t "popularity"),
             ("duration_ms", tfield t "duration_ms")]) ∧
      (t.hasKey "artists" = false → arts = []) ∧
      (t.hasKey "album" = false → albumOut = emptyAlbumSummary) := by
  rw [wf_track, Bool.and_eq_true, Bool.and_eq_true] at h
  obtain ⟨⟨hobj, hart⟩, halb⟩ := h
  rcases t with _ | b | n | s | es | fs
  case obj =>
    simp only [pyDictGet] at hart halb
    rcases hva : (fs.lookup "artists").getD (Json.arr []) with _ | _ | _ | _ | elems | _ <;>
      rw [hva] at hart
    case arr =>
      obtain ⟨arts, harts⟩ := mapM_simplify_artist_all_obj elems hart
      rcases hvb : (fs.lookup "album").getD (Json.obj []) with _ | _ | _ | _ | _ | bfs <;>
        rw [hvb] at halb
      case obj =>
        refine ⟨arts,
          Json.obj
            [("id", (bfs.lookup "id").getD Json.null),
             ("name", (bfs.lookup "name").getD Json.null),
             ("release_date", (bfs.lookup "release_date").getD Json.null),
             ("total_tracks", (bfs.lookup "total_tracks").getD Json.null),
             ("images", (bfs.lookup "images").getD Json.null),
             ("href", (bfs.lookup "href").getD Json.null)], ?_, ?_, ?_⟩
        · have harts2 : List.mapM.loop simplify_artist elems [] = some arts := harts
          simp [simplify_track, pyGet, pyDictGet, tfield, hva, pyIterMapM, harts,
            harts2, hvb, simplify_album_obj]
        · intro hk
          rw [Json.hasKey] at hk
          rcases hl : fs.lookup "artists" with _ | vv
          · rw [hl] at hva
            simp only [Option.getD_none] at hva
            have helems : elems = [] := by
              injection hva with h2
              exact h2.symm
            subst helems
            have hnil : some ([] : List Json) = some arts := by
              rw [← harts]
              rfl
            exact (Option.some.inj hnil).symm
          · rw [hl] at hk
            exact absurd hk (by simp)
        · intro hk
          rw [Json.hasKey] at hk
          rcases hl : fs.lookup "album" with _ | vv
          · rw [hl] at hvb
            simp only [Option.getD_none] at hvb
            have hbfs : bfs = [] := by
              injection hvb with h2
              exact h2.symm
            subst hbfs
            rfl
          · rw [hl] at hk
            exact absurd hk (by simp)
      all_goals exact absurd halb (by simp [Json.isObj])
    all_goals exact absurd hart (by simp)
  all_goals exact absurd hobj (by simp [Json.isObj])

/-- On a list of well-formed track items, the projection loop succeeds on
every item. -/
theorem mapM_simplify_trackD (ts : List Json)
    (h : ∀ t ∈ ts, wf_track t = true) :
    ts.mapM simplify_track = some (ts.map simplify_trackD) := by
  induction ts with
  | nil => rfl
  | cons a rest ih =>
    obtain ⟨arts, albumOut, hst, h2, h3⟩ := simplify_track_wf a (h a (by simp))
    have hsome : simplify_track a = some (simplify_trackD a) := by
      simp only [simplify_trackD, hst, Option.getD_some]
    rw [List.mapM_cons, hsome, ih (fun x hx => h x (by simp [hx])), List.map_cons]
    rfl

/-- C6: for a remote search result whose items list holds N well-formed
track items, the authenticated /search response is the 200 array of exactly
the N projections, each projection carries exactly the reduced field set in
order, and every optional remote field that is absent comes out as null —
absent scalar fields as null values, an absent artists list as the empty
array, an absent album as the all-null album summary. -/
theorem search_reshaping_complete :
    ∀ (now : Nat) (cache : Option TokenInfo) (refresh : RefreshOutcome)
      (q : Option String) (results : Json) (ts : List Json),
    (require_authentication now cache refresh).1.1 = true →
    optTruthy q = true →
    search_items results = some (Json.arr ts) →
    (∀ t ∈ ts, wf_track t = true) →
    (search_songs now cache refresh q (Except.ok results)).1
        = Outcome.response ⟨200, Json.arr (ts.map simplify_trackD)⟩ ∧
    (ts.map simplify_trackD).length = ts.length ∧
    (∀ t ∈ ts,
      (simplify_trackD t).keys = simplified_fields ∧
      (∀ k ∈ scalar_track_fields, t.hasKey k = false →
          (simplify_trackD t).lookupKey k = some Json.null) ∧
      (t.hasKey "artists" = false →
          (simplify_trackD t).lookupKey "artists" = some (Json.arr [])) ∧
      (t.hasKey "album" = false →
          (simplify_trackD t).lookupKey "album" = some emptyAlbumSummary)) := by
  intro now cache refresh q results ts hauth hq hitems hwf
  obtain ⟨tk, c1, hre⟩ := require_authentication_true_shape now cache refresh hauth
  have hmap := mapM_simplify_trackD ts hwf
  have hmap2 : List.mapM.loop simplify_track ts [] = some (ts.map simplify_trackD) :=
    hmap
  refine ⟨?_, by simp, ?_⟩
  · have hss : searchSimplify results = some (ts.map simplify_trackD) := by
      simp [searchSimplify, hitems, pyIterMapM, hmap, hmap2]
    simp [search_songs, hre, hq, hss]
  · intro t ht
    obtain ⟨arts, albumOut, hst, hartsnil, halbempty⟩ :=
      simplify_track_wf t (hwf t ht)
    have hD : simplify_trackD t
        = Json.obj
            [("id", tfield t "id"), ("name", tfield t "name"),
             ("artists", Json.arr arts), ("album", albumOut),
             ("href", tfield t "href"), ("uri", tfield t "uri"),
             ("preview_url", tfield t "preview_url"),
             ("popularity", tfield t "popularity"),
             ("duration_ms", tfield t "duration_ms")] := by
      simp only [simplify_trackD, hst, Option.getD_some]
    refine ⟨?_, ?_, ?_, ?_⟩
    · rw [hD]
      rfl
    · intro k hk hkey
      have hnull := tfield_eq_null t k hkey
      simp only [scalar_track_fields, List.mem_cons, List.not_mem_nil,
        or_false] at hk
      rcases hk with h | h | h | h | h | h | h <;> subst h <;> rw [hD, hnull] <;> rfl
    · intro hkey
      rw [hD, hartsnil hkey]
      rfl
    · intro hkey
      rw [hD, halbempty hkey]
      rfl

theorem search_reshaping_complete_witness :
    (search_songs 0 (some demoToken) RefreshOutcome.failure (some "love")
        (Except.ok demoResults)).1
      = Outcome.response
          ⟨200, Json.arr ([demoTrackFull, demoTrackEmpty].map simplify_trackD)⟩ ∧
    ([demoTrackFull, demoTrackEmpty].map simplify_trackD).length
      = [demoTrackFull, demoTrackEmpty].length ∧
    (∀ t ∈ [demoTrackFull, demoTrackEmpty],
      (simplify_trackD t).keys = simplified_fields ∧
      (∀ k ∈ scalar_track_fields, t.hasKey k = false →
          (simplify_trackD t).lookupKey k = some Json.null) ∧
      (t.hasKey "artists" = false →
          (simplify_trackD t).lookupKey "artists" = some (Json.arr [])) ∧
      (t.hasKey "album" = false →
          (simplify_trackD t).lookupKey "album" = some emptyAlbumSummary)) :=
  search_reshaping_complete 0 (some demoToken) RefreshOutcome.failure
    (some "love") demoResults [demoTrackFull, demoTrackEmpty]
    (by decide) (by decide) rfl (by decide)

theorem play_wraps_track_id_single_uri_witness :
    (play_song 0 (some demoToken) RefreshOutcome.failure
        (Json.obj [("track_id", Json.str "trk1")]) (Except.ok ())).2.1
      = [Event.gateCheck true,
         Event.remoteCall "sp.start_playback"
           [Json.arr [Json.str ("spotify:track:" ++ "trk1")]]] :=
  play_wraps_track_id_single_uri 0 (some demoToken) RefreshOutcome.failure
    (Json.obj [("track_id", Json.str "trk1")]) "trk1" (Except.ok ())
    (by decide) rfl (by decide)
